import Mathlib

/-!
Verification of the In-Sight steel-investment analysis engine.

The Python sources are embedded shallowly over `ℚ` (exact rational arithmetic in
place of IEEE floats; none of the verified properties depend on rounding).
The primary projection engine is `calculate_detailed_analysis` from
`flask_app.py` (the same formulas appear in
`steel_investment_analysis.py::calculate_investment_analysis` with hard-coded
sales volumes); the IRR validation logic is embedded from both
`steel_investment_analysis.py::calculate_irr` and `flask_app.py`; the sampling
layers come from `app.py` and the legacy
`attached_assets/SteelEconomics/app_broken.py`.

Python's `float / 0` raises `ZeroDivisionError`; the single division in the
engine whose divisor is not a nonzero literal (`annual_repayment =
total_debt_principal / repayment_period`) is therefore guarded explicitly and
the engine returns an `Except` value.  All other divisors in the engine are the
literals 365, 100, 15 and 20.
-/

set_option maxHeartbeats 1000000

namespace InSight

/-! ## NPV / IRR solver (flask_app.py lines 181-189, steel_investment_analysis.py lines 243-254) -/

/-- Helper for the NPV sums: `npvFrom rate i [c₀, c₁, ...] = c₀/(1+rate)^i + c₁/(1+rate)^(i+1) + ...`.
Both the code's NPV (starting exponent 0) and the spec's NPV (starting
exponent 1) are instances. -/
def npvFrom (rate : ℚ) : ℕ → List ℚ → ℚ
  | _, [] => 0
  | i, cf :: rest => cf / (1 + rate) ^ i + npvFrom rate (i + 1) rest

/-- Transcribed from `npv_func` (flask_app.py line 182, steel_investment_analysis.py
line 244, financial_calculator.py line 56):
`sum(cf / (1 + rate) ** i for i, cf in enumerate(cash_flows))`.
Python's `enumerate` starts at index 0, so the first cash flow is undiscounted. -/
def npv_func (cash_flows : List ℚ) (rate : ℚ) : ℚ :=
  npvFrom rate 0 cash_flows

/-- Defined from the spec's words (section 4.2): `NPV(rate) = Σ cash_flows[i] / (1+rate)^i
for i = 1..N (no i=0 / initial-outlay term)`; the i-th cash flow (1-based) is
discounted by `(1+rate)^i`. -/
def npvSpec (cash_flows : List ℚ) (rate : ℚ) : ℚ :=
  npvFrom rate 1 cash_flows

/-- Transcribed from `SteelInvestmentAnalyzer.calculate_irr`
(steel_investment_analysis.py lines 246-254).  `fsolve` is an external numeric
routine; its returned root is modelled as the free input `candidate`.  The
validation is the code of the function:
`if abs(npv_func(irr)) < 1e-6 and -0.99 < irr < 10: return irr else: return None`. -/
def calculate_irr (cash_flows : List ℚ) (candidate : ℚ) : Option ℚ :=
  if |npv_func cash_flows candidate| < 1 / 1000000 ∧
      (-99) / 100 < candidate ∧ candidate < 10 then
    some candidate
  else
    none

/-- Transcribed from flask_app.py lines 185-187 (rejection form):
`irr = fsolve(npv_func, 0.1)[0]; if abs(npv_func(irr)) > 1e-6 or irr < -0.99 or irr > 10: irr = None`.
Again the `fsolve` root is the free input `candidate`. -/
def flask_irr (cash_flows : List ℚ) (candidate : ℚ) : Option ℚ :=
  if 1 / 1000000 < |npv_func cash_flows candidate| ∨
      candidate < (-99) / 100 ∨ 10 < candidate then
    none
  else
    some candidate

/-! ## Historical aggregation (HistoricalAggregator) -/

/-- Transcribed from `SteelInvestmentAnalyzer.calculate_unit_price_and_costs`
(steel_investment_analysis.py lines 24-40).  A historical dataset is a list of
per-period revenues, volumes, material costs and processing costs.
`unit_selling_price = total_revenue / total_quantity if total_quantity > 0 else 0`;
the two cost means are pandas `.mean()`, which yields NaN on an empty column
(modelled as `none`). -/
def calculate_unit_price_and_costs (sales_revenue sales_volume material_cost processing_cost : List ℚ) :
    ℚ × Option ℚ × Option ℚ :=
  let total_revenue := sales_revenue.sum
  let total_quantity := sales_volume.sum
  let unit_selling_price := if 0 < total_quantity then total_revenue / total_quantity else 0
  let avg_material_cost :=
    if material_cost.length = 0 then none else some (material_cost.sum / material_cost.length)
  let avg_processing_cost :=
    if processing_cost.length = 0 then none else some (processing_cost.sum / processing_cost.length)
  (unit_selling_price, avg_material_cost, avg_processing_cost)

/-- Transcribed from flask_app.py lines 61-63:
`unit_selling_price = total_revenue / total_quantity` with NO guard on
`total_quantity`.  The operands are numpy scalars, for which division by zero
does not raise but produces a non-finite value (inf, or nan when the numerator
is also 0); a non-finite result is modelled as `none`. -/
def flask_unit_selling_price (sales_revenue sales_volume : List ℚ) : Option ℚ :=
  if sales_volume.sum = 0 then none
  else some (sales_revenue.sum / sales_volume.sum)

/-! ## Projection engine (flask_app.py `calculate_detailed_analysis`, lines 67-178)

Parameter fields keep the Python variable names and hold the values exactly as
the Python locals do after the `params.get` calls: the ratio and rate
parameters are in percent form (e.g. 50.0 for 50%) and are divided by 100 at
each use site, as in the source.  The `_pct` suffix on the percent-form
fields is only to satisfy identifier conventions of this development. -/

structure Params where
  business_period : ℕ
  construction_period : ℕ
  total_investment : ℚ
  debt_ratio_pct : ℚ
  machinery_ratio_pct : ℚ
  building_ratio_pct : ℚ
  long_term_rate_pct : ℚ
  grace_period : ℕ
  repayment_period : ℕ
  tax_rate_pct : ℚ
  sales_admin_ratio_pct : ℚ
  receivables_days : ℚ
  payables_days : ℚ
  product_inventory_days : ℚ
  material_inventory_days : ℚ
  year5_volume : ℚ
  year6_volume : ℚ
  year7_plus_volume : ℚ

/-- The three scalars derived by the historical aggregation step
(flask_app.py lines 61-65), consumed by the projection loop. -/
structure Scalars where
  unit_selling_price : ℚ
  avg_material_cost : ℚ
  avg_processing_cost : ℚ

/-- flask_app.py line 70: `total_period = business_period + construction_period`. -/
def total_period (p : Params) : ℕ :=
  p.business_period + p.construction_period

/-- flask_app.py line 91:
`sales_volumes = [0, 0, 0, 0, year5_volume, year6_volume] + [year7_plus_volume] * (total_period - 6)`
(Python list repetition with a negative count yields `[]`, matching `ℕ` subtraction). -/
def sales_volumes (p : Params) : List ℚ :=
  [0, 0, 0, 0, p.year5_volume, p.year6_volume] ++
    List.replicate (total_period p - 6) p.year7_plus_volume

/-- flask_app.py line 105:
`sales_volume = sales_volumes[year-1] if year <= len(sales_volumes) else sales_volumes[-1]`. -/
def sales_volume (p : Params) (year : ℕ) : ℚ :=
  if year ≤ (sales_volumes p).length then (sales_volumes p).getD (year - 1) 0
  else (sales_volumes p).getLastD 0

/-- flask_app.py line 99:
`investment_execution = [0.3, 0.3, 0.3, 0.1] + [0] * (total_period - 4)`. -/
def investment_execution (p : Params) : List ℚ :=
  [3 / 10, 3 / 10, 3 / 10, 1 / 10] ++ List.replicate (total_period p - 4) 0

/-- flask_app.py line 121:
`investment = total_investment * investment_execution[year - 1] if year <= len(investment_execution) else 0`. -/
def investment (p : Params) (year : ℕ) : ℚ :=
  if year ≤ (investment_execution p).length then
    p.total_investment * (investment_execution p).getD (year - 1) 0
  else 0

/-- flask_app.py line 112: `machinery_depreciation = (total_investment * machinery_ratio / 100) / 15`.
The divisor 15 is a hard-coded literal; no depreciation-years parameter exists in the code. -/
def machinery_depreciation (p : Params) : ℚ :=
  p.total_investment * p.machinery_ratio_pct / 100 / 15

/-- flask_app.py line 113: `building_depreciation = (total_investment * building_ratio / 100) / 20`.
The divisor 20 is a hard-coded literal. -/
def building_depreciation (p : Params) : ℚ :=
  p.total_investment * p.building_ratio_pct / 100 / 20

/-- flask_app.py lines 111-116: depreciation is the sum of both parts after the
construction period and 0 during it. -/
def depreciation (p : Params) (year : ℕ) : ℚ :=
  if p.construction_period < year then machinery_depreciation p + building_depreciation p
  else 0

/-- flask_app.py line 97: `total_debt_principal = total_investment * (debt_ratio / 100)`. -/
def total_debt_principal (p : Params) : ℚ :=
  p.total_investment * (p.debt_ratio_pct / 100)

/-- flask_app.py line 98: `annual_repayment = total_debt_principal / repayment_period`.
This is the one division in the engine with a non-literal divisor; the
`ZeroDivisionError` it raises for `repayment_period = 0` is modelled at the
entry point `calculate_detailed_analysis`.  Here the value is the exact `ℚ`
quotient, meaningful whenever `repayment_period ≠ 0`. -/
def annual_repayment (p : Params) : ℚ :=
  total_debt_principal p / (p.repayment_period : ℚ)

/-- flask_app.py line 124: `debt_increase = investment * (debt_ratio / 100)`.
There is no grace-period condition on this quantity in the code. -/
def debt_increase (p : Params) (year : ℕ) : ℚ :=
  investment p year * (p.debt_ratio_pct / 100)

/-- flask_app.py lines 125-128:
`debt_decrease = annual_repayment if grace_period < year <= grace_period + repayment_period else 0`. -/
def debt_decrease (p : Params) (year : ℕ) : ℚ :=
  if p.grace_period < year ∧ year ≤ p.grace_period + p.repayment_period then annual_repayment p
  else 0

/-- flask_app.py lines 95 and 130: the loop-carried accumulator
`debt_balance = debt_balance + debt_increase - debt_decrease`, starting at 0. -/
def debt_balance (p : Params) : ℕ → ℚ
  | 0 => 0
  | year + 1 => debt_balance p year + debt_increase p (year + 1) - debt_decrease p (year + 1)

/-- flask_app.py line 131: `financial_cost = debt_balance * (long_term_rate / 100)`. -/
def financial_cost (p : Params) (year : ℕ) : ℚ :=
  debt_balance p year * (p.long_term_rate_pct / 100)

/-- flask_app.py lines 134-141: working capital for one year (a pure function of
that year's revenue and material cost). -/
def working_capital (p : Params) (s : Scalars) (year : ℕ) : ℚ :=
  let total_revenue_year := s.unit_selling_price * sales_volume p year
  let material_cost := s.avg_material_cost * sales_volume p year
  if 0 < total_revenue_year then
    (total_revenue_year / 365) * p.receivables_days +
      total_revenue_year * p.product_inventory_days / 365 +
      (if 0 < material_cost then material_cost * p.material_inventory_days / 365 else 0) -
      (if 0 < material_cost then (material_cost / 365) * p.payables_days else 0)
  else 0

/-- flask_app.py lines 96 and 143-146: the loop-carried `previous_working_capital`
is updated every year and starts at 0, so at year `y` it holds
`working_capital (y-1)` (and 0 at year 1). -/
def previous_wc (p : Params) (s : Scalars) (year : ℕ) : ℚ :=
  if year ≤ 1 then 0 else working_capital p s (year - 1)

/-- flask_app.py lines 143-145: the increase is 0 during construction, else the
forward difference of working capital. -/
def working_capital_increase (p : Params) (s : Scalars) (year : ℕ) : ℚ :=
  if p.construction_period < year then working_capital p s year - previous_wc p s year
  else 0

/-- Python exception surfaced by the engine: `float / 0` raises
`ZeroDivisionError`. -/
inductive PyError where
  | zeroDivisionError
deriving DecidableEq, Repr

/-- One row of the per-year table built by the loop body
(flask_app.py lines 103-178); field names follow the Python locals. -/
structure YearData where
  year : ℕ
  sales_volume : ℚ
  total_revenue_year : ℚ
  material_cost : ℚ
  processing_cost : ℚ
  depreciation : ℚ
  manufacturing_cost : ℚ
  investment : ℚ
  debt_increase : ℚ
  debt_decrease : ℚ
  debt_balance : ℚ
  financial_cost : ℚ
  working_capital : ℚ
  working_capital_increase : ℚ
  sales_admin_cost : ℚ
  ebit : ℚ
  pretax_income : ℚ
  corporate_tax : ℚ
  net_income : ℚ
  residual_value : ℚ
  working_capital_recovery : ℚ
  cash_inflow : ℚ
  cash_outflow : ℚ
  cash_flow : ℚ
deriving Inhabited

/-- The loop-carried mutable state of the Python `for` loop:
`debt_balance` and `previous_working_capital` (flask_app.py lines 95-96). -/
structure LoopState where
  debt_balance : ℚ
  previous_working_capital : ℚ

/-- Direct transcription of one iteration of the projection loop
(flask_app.py lines 103-178), threading the mutable state explicitly. -/
def year_step (p : Params) (s : Scalars) (st : LoopState) (year : ℕ) : YearData × LoopState :=
  let sv := sales_volume p year
  let total_revenue_year := s.unit_selling_price * sv
  let material_cost := s.avg_material_cost * sv
  let processing_cost := s.avg_processing_cost * sv
  let dep :=
    if p.construction_period < year then machinery_depreciation p + building_depreciation p
    else 0
  let manufacturing_cost := material_cost + processing_cost + dep
  let inv := investment p year
  let di := inv * (p.debt_ratio_pct / 100)
  let dd :=
    if p.grace_period < year ∧ year ≤ p.grace_period + p.repayment_period then annual_repayment p
    else 0
  let db := st.debt_balance + di - dd
  let fc := db * (p.long_term_rate_pct / 100)
  let wc :=
    if 0 < total_revenue_year then
      (total_revenue_year / 365) * p.receivables_days +
        total_revenue_year * p.product_inventory_days / 365 +
        (if 0 < material_cost then material_cost * p.material_inventory_days / 365 else 0) -
        (if 0 < material_cost then (material_cost / 365) * p.payables_days else 0)
    else 0
  let wci :=
    if p.construction_period < year then wc - st.previous_working_capital
    else 0
  let sales_admin_cost := total_revenue_year * (p.sales_admin_ratio_pct / 100)
  let ebit := total_revenue_year - manufacturing_cost - sales_admin_cost
  let pretax_income := ebit - fc
  let corporate_tax := max 0 (pretax_income * (p.tax_rate_pct / 100))
  let net_income := pretax_income - corporate_tax
  let residual_value :=
    if year = total_period p then
      p.total_investment - dep * ((total_period p - p.construction_period : ℕ) : ℚ)
    else 0
  let working_capital_recovery := if year = total_period p then wc else 0
  let cash_inflow := net_income + fc + dep + residual_value + working_capital_recovery
  let cash_outflow := inv + wci
  let cash_flow := cash_inflow - cash_outflow
  (⟨year, sv, total_revenue_year, material_cost, processing_cost, dep, manufacturing_cost, inv,
      di, dd, db, fc, wc, wci, sales_admin_cost, ebit, pretax_income, corporate_tax, net_income,
      residual_value, working_capital_recovery, cash_inflow, cash_outflow, cash_flow⟩,
    ⟨db, wc⟩)

/-- The projection loop over a list of year indices, threading the state. -/
def run_years (p : Params) (s : Scalars) : List ℕ → LoopState → List YearData
  | [], _ => []
  | y :: ys, st =>
    let r := year_step p s st y
    r.1 :: run_years p s ys r.2

/-- Entry point, flask_app.py lines 93-178 (after the historical scalars have
been derived).  `annual_repayment = total_debt_principal / repayment_period`
(line 98) raises `ZeroDivisionError` in Python when `repayment_period = 0`;
otherwise the loop runs over `range(1, total_period + 1)` from the initial
state `debt_balance = 0`, `previous_working_capital = 0`. -/
def calculate_detailed_analysis (p : Params) (s : Scalars) : Except PyError (List YearData) :=
  if p.repayment_period = 0 then Except.error PyError.zeroDivisionError
  else Except.ok (run_years p s (List.range' 1 (total_period p)) ⟨0, 0⟩)

/-- Closed-form description of the year-`year` row, phrased with the pure
per-year functions above; proved equal to the loop's output below. -/
def closed_year (p : Params) (s : Scalars) (year : ℕ) : YearData :=
  let sv := sales_volume p year
  let total_revenue_year := s.unit_selling_price * sv
  let material_cost := s.avg_material_cost * sv
  let processing_cost := s.avg_processing_cost * sv
  let dep := depreciation p year
  let manufacturing_cost := material_cost + processing_cost + dep
  let inv := investment p year
  let di := debt_increase p year
  let dd := debt_decrease p year
  let db := debt_balance p year
  let fc := financial_cost p year
  let wc := working_capital p s year
  let wci := working_capital_increase p s year
  let sales_admin_cost := total_revenue_year * (p.sales_admin_ratio_pct / 100)
  let ebit := total_revenue_year - manufacturing_cost - sales_admin_cost
  let pretax_income := ebit - fc
  let corporate_tax := max 0 (pretax_income * (p.tax_rate_pct / 100))
  let net_income := pretax_income - corporate_tax
  let residual_value :=
    if year = total_period p then
      p.total_investment - dep * ((total_period p - p.construction_period : ℕ) : ℚ)
    else 0
  let working_capital_recovery := if year = total_period p then wc else 0
  let cash_inflow := net_income + fc + dep + residual_value + working_capital_recovery
  let cash_outflow := inv + wci
  let cash_flow := cash_inflow - cash_outflow
  ⟨year, sv, total_revenue_year, material_cost, processing_cost, dep, manufacturing_cost, inv,
    di, dd, db, fc, wc, wci, sales_admin_cost, ebit, pretax_income, corporate_tax, net_income,
    residual_value, working_capital_recovery, cash_inflow, cash_outflow, cash_flow⟩

/-- Convenience accessor: the rows of a successful run, `[]` on error. -/
def result_years (p : Params) (s : Scalars) : List YearData :=
  match calculate_detailed_analysis p s with
  | Except.ok res => res
  | Except.error _ => []

/-! ## Spec-side definitions used to compare the code against the claims -/

/-- Defined from the spec's words (section 4.1): `machinery_depreciation(y) = 0
if y ≤ construction_period, else (total_investment × machinery_ratio) /
machinery_depreciation_years`, with the depreciation years a free parameter
(the ratio argument is in percent form as in the code, hence the `/ 100`). -/
def spec_machinery_depreciation (p : Params) (machinery_depreciation_years : ℚ) (year : ℕ) : ℚ :=
  if year ≤ p.construction_period then 0
  else p.total_investment * (p.machinery_ratio_pct / 100) / machinery_depreciation_years

/-- Defined from the spec's words (section 4.1, table row for debt_balance):
`debt_increase(y) = investment(y) × debt_ratio but forced to 0 once
y > loan_grace_period`. -/
def spec_debt_increase (p : Params) (year : ℕ) : ℚ :=
  if p.grace_period < year then 0
  else investment p year * (p.debt_ratio_pct / 100)

/-- Defined from the spec's words: the debt-balance recurrence with the spec's
grace-period-gated `debt_increase` (the `debt_decrease` clause of the claim
agrees with the code's `debt_decrease`). -/
def spec_debt_balance (p : Params) : ℕ → ℚ
  | 0 => 0
  | year + 1 =>
    spec_debt_balance p year + spec_debt_increase p (year + 1) - debt_decrease p (year + 1)

/-! ## Monte Carlo sampler (app.py `perform_single_variable_monte_carlo`, lines 11-106) -/

/-- Outcome of one perturbed engine+solver run inside a sampling loop.  The
whole per-sample computation sits in a `try`/`except` block, so every possible
Python behaviour is one of: an exception (`raised`, caught and skipped), the
solver's explicit `None` (`noneIrr`), a value whose `float()` conversion fails
or is NaN/inf (`nonFinite`), or a finite numeric rate (`val r`). -/
inductive IrrOutcome where
  | raised
  | noneIrr
  | nonFinite
  | val (r : ℚ)
deriving DecidableEq, Repr

/-- app.py lines 37-38: `factor = 1 + np.random.normal(0, variation/2);
factor = max(0.5, min(2.0, factor))`.  The random draw is the free input; the
clamp is the code. -/
def clamp_factor (f : ℚ) : ℚ :=
  max (1 / 2) (min 2 f)

/-- app.py lines 63-83: validation of one Monte Carlo draw.  A draw is kept
exactly when the run produced a numeric rate `r` that is finite and satisfies
`-1.0 <= r <= 5.0` (line 74); every other outcome is skipped silently.  Kept
draws contribute the pair `(factor, irr)` (lines 75-76), with the clamped
factor. -/
def retain_sample : ℚ × IrrOutcome → Option (ℚ × ℚ)
  | (f, IrrOutcome.val r) => if -1 ≤ r ∧ r ≤ 5 then some (clamp_factor f, r) else none
  | (_, IrrOutcome.raised) => none
  | (_, IrrOutcome.noneIrr) => none
  | (_, IrrOutcome.nonFinite) => none

/-- np.min of a nonempty list (fold of `min`); the default is irrelevant for
nonempty input. -/
def np_min (l : List ℚ) : ℚ :=
  l.foldr min (l.headD 0)

/-- np.max of a nonempty list (fold of `max`). -/
def np_max (l : List ℚ) : ℚ :=
  l.foldr max (l.headD 0)

/-- Summary statistics of a Monte Carlo run (app.py lines 91-104).  Standard
deviation and the four percentiles are further numpy reductions of the same
`irr_results` array and are not re-embedded (they involve square roots and
interpolation); the raw retained lists, from which all of them are computed,
are carried in full. -/
structure SampleSummary where
  base_irr : Option ℚ
  mean_irr : ℚ
  min_irr : ℚ
  max_irr : ℚ
  irr_results : List ℚ
  factor_values : List ℚ
deriving DecidableEq

/-- Transcribed control flow of `perform_single_variable_monte_carlo`
(app.py lines 11-106).  `base_irr` is the base-case result computed before the
loop; `draws` holds, for each of the `n_simulations` iterations, the raw random
factor together with the outcome of the perturbed engine+solver run at that
factor (the engine itself is invoked behind `try`/`except`, so an arbitrary
outcome, including an exception, is allowed for every draw).  Returns `none`
(the Python `None`, i.e. NoData) exactly when no draw validated, otherwise the
summary of the retained `(factor, irr)` pairs. -/
def perform_single_variable_monte_carlo (base_irr : Option ℚ)
    (draws : List (ℚ × IrrOutcome)) : Option SampleSummary :=
  let collected := draws.filterMap retain_sample
  let irr_results := collected.map Prod.snd
  let factor_values := collected.map Prod.fst
  if irr_results.length = 0 then none
  else
    some
      { base_irr := base_irr
        mean_irr := irr_results.sum / (irr_results.length : ℚ)
        min_irr := np_min irr_results
        max_irr := np_max irr_results
        irr_results := irr_results
        factor_values := factor_values }

/-! ## Grid regression (app.py `display_results`, lines 1913-2076, and the
legacy `show_advanced_analysis` of attached_assets/SteelEconomics/app_broken.py,
lines 763-806) -/

/-- app.py line 1918: `investment_variations = [-50, -25, -10, 0, 10, 25, 50]`. -/
def investment_variations : List ℤ :=
  [-50, -25, -10, 0, 10, 25, 50]

/-- app.py line 1919: `price_variations = [-30, -15, -5, 0, 5, 15, 30]`. -/
def price_variations : List ℤ :=
  [-30, -15, -5, 0, 5, 15, 30]

/-- app.py line 1920: `cost_variations = [-30, -15, -5, 0, 5, 15, 30]`. -/
def cost_variations : List ℤ :=
  [-30, -15, -5, 0, 5, 15, 30]

/-- The Cartesian product traversed by the three nested `for` loops
(app.py lines 1923-1925). -/
def grid_combinations : List (ℤ × ℤ × ℤ) :=
  investment_variations.flatMap fun inv_change =>
    price_variations.flatMap fun price_change =>
      cost_variations.map fun cost_change => (inv_change, price_change, cost_change)

/-- app.py lines 1942-1950: each combination's perturbed run sits in an inner
`try`/`except` (outcome free, as in the Monte Carlo model); a combination is
collected exactly when `regression_results['irr'] is not None and not
np.isnan(...) and np.isfinite(...)` (line 1946), i.e. when the outcome is a
finite numeric rate.  Collected combinations contribute
`sample_points.append([inv, price, cost])` and `sample_irrs.append(irr)`. -/
def collect_regression_samples (evalIrr : ℤ → ℤ → ℤ → IrrOutcome) :
    List ((ℤ × ℤ × ℤ) × ℚ) :=
  grid_combinations.filterMap fun c =>
    match evalIrr c.1 c.2.1 c.2.2 with
    | IrrOutcome.val r => some (c, r)
    | _ => none

/-- The data handed to the sklearn OLS fit. -/
structure RegressionData where
  sample_points : List (ℤ × ℤ × ℤ)
  sample_irrs : List ℚ

/-- Transcribed control flow of the regression section of `display_results`
(app.py lines 1913-2076): `if len(sample_irrs) >= 10:` fit the linear model,
`else:` show the insufficient-data error (line 2074-2076, modelled `none`).
The sklearn `LinearRegression().fit(X, y)` and `r2_score` are external library
calls applied to exactly `sample_points`/`sample_irrs`; the embedding returns
those arrays. -/
def display_results_regression (evalIrr : ℤ → ℤ → ℤ → IrrOutcome) :
    Option RegressionData :=
  let s := collect_regression_samples evalIrr
  if 10 ≤ s.length then some ⟨s.map Prod.fst, s.map Prod.snd⟩
  else none

/-- attached_assets/SteelEconomics/app_broken.py lines 766-805
(`show_advanced_analysis` regression block): random (not grid) draws, each an
engine run whose IRR is kept when `temp_irr is not None and not np.isnan(temp_irr)
and not np.isinf(temp_irr)` (line 792). -/
def collect_broken_samples (draws : List ((ℚ × ℚ × ℚ) × IrrOutcome)) :
    List ((ℚ × ℚ × ℚ) × ℚ) :=
  draws.filterMap fun d =>
    match d.2 with
    | IrrOutcome.val r => some (d.1, r)
    | _ => none

/-- attached_assets/SteelEconomics/app_broken.py lines 800-805:
`if len(regression_data) > 10:` fit, `else:` error — note the strict
inequality (at least 11 points), unlike `display_results`. -/
def show_advanced_analysis_regression (draws : List ((ℚ × ℚ × ℚ) × IrrOutcome)) :
    Option (List ((ℚ × ℚ × ℚ) × ℚ)) :=
  let s := collect_broken_samples draws
  if 10 < s.length then some s
  else none

/-! ## Concrete inputs used by counterexamples and witnesses -/

/-- Base scalars: unit price 600, material 465, processing 160 (Scenario A of
the spec, derived from total revenue 46,500,000 over 77,500 tons). -/
def s0 : Scalars :=
  { unit_selling_price := 600
    avg_material_cost := 465
    avg_processing_cost := 160 }

/-- Small parameter set with `repayment_period = 0` and every monetary value
non-negative; all other fields are the defaults of flask_app.py. -/
def p_zero_repayment : Params :=
  { business_period := 2
    construction_period := 1
    total_investment := 100
    debt_ratio_pct := 50
    machinery_ratio_pct := 80
    building_ratio_pct := 20
    long_term_rate_pct := 37 / 10
    grace_period := 4
    repayment_period := 0
    tax_rate_pct := 25
    sales_admin_ratio_pct := 4
    receivables_days := 30
    payables_days := 50
    product_inventory_days := 30
    material_inventory_days := 40
    year5_volume := 70000
    year6_volume := 80000
    year7_plus_volume := 100000 }

/-- Parameter set exercising the depreciation formulas: machinery ratio 100%,
construction period 1, three years in total. -/
def p_dep : Params :=
  { business_period := 2
    construction_period := 1
    total_investment := 3000
    debt_ratio_pct := 50
    machinery_ratio_pct := 100
    building_ratio_pct := 0
    long_term_rate_pct := 37 / 10
    grace_period := 4
    repayment_period := 8
    tax_rate_pct := 25
    sales_admin_ratio_pct := 4
    receivables_days := 30
    payables_days := 50
    product_inventory_days := 30
    material_inventory_days := 40
    year5_volume := 70000
    year6_volume := 80000
    year7_plus_volume := 100000 }

/-- Parameter set with `construction_period = 5` (seven years in total),
falsifying the hard-coded-zero-years claim. -/
def p_cp5 : Params :=
  { business_period := 2
    construction_period := 5
    total_investment := 400000000
    debt_ratio_pct := 50
    machinery_ratio_pct := 80
    building_ratio_pct := 20
    long_term_rate_pct := 37 / 10
    grace_period := 4
    repayment_period := 8
    tax_rate_pct := 25
    sales_admin_ratio_pct := 4
    receivables_days := 30
    payables_days := 50
    product_inventory_days := 30
    material_inventory_days := 40
    year5_volume := 70000
    year6_volume := 80000
    year7_plus_volume := 100000 }

/-- Parameter set with `grace_period = 2`, so that an investment tranche falls
in year 3 > grace_period. -/
def p_grace2 : Params :=
  { business_period := 3
    construction_period := 1
    total_investment := 400000000
    debt_ratio_pct := 50
    machinery_ratio_pct := 80
    building_ratio_pct := 20
    long_term_rate_pct := 37 / 10
    grace_period := 2
    repayment_period := 8
    tax_rate_pct := 25
    sales_admin_ratio_pct := 4
    receivables_days := 30
    payables_days := 50
    product_inventory_days := 30
    material_inventory_days := 40
    year5_volume := 70000
    year6_volume := 80000
    year7_plus_volume := 100000 }

/-- Parameter set with a fully contained loan window: 9 years in total,
grace 1, repayment 8 (grace + repayment = total). -/
def p_amort : Params :=
  { business_period := 5
    construction_period := 4
    total_investment := 400000000
    debt_ratio_pct := 50
    machinery_ratio_pct := 80
    building_ratio_pct := 20
    long_term_rate_pct := 37 / 10
    grace_period := 1
    repayment_period := 8
    tax_rate_pct := 25
    sales_admin_ratio_pct := 4
    receivables_days := 30
    payables_days := 50
    product_inventory_days := 30
    material_inventory_days := 40
    year5_volume := 70000
    year6_volume := 80000
    year7_plus_volume := 100000 }

/-- Parameter set with the flask defaults (construction 4, grace 4,
repayment 8, 19 years). -/
def p_base : Params :=
  { business_period := 15
    construction_period := 4
    total_investment := 400000000
    debt_ratio_pct := 50
    machinery_ratio_pct := 80
    building_ratio_pct := 20
    long_term_rate_pct := 37 / 10
    grace_period := 4
    repayment_period := 8
    tax_rate_pct := 25
    sales_admin_ratio_pct := 4
    receivables_days := 30
    payables_days := 50
    product_inventory_days := 30
    material_inventory_days := 40
    year5_volume := 70000
    year6_volume := 80000
    year7_plus_volume := 100000 }

/-! ## Core extraction: the imperative loop equals the closed-form rows -/

/-- One loop iteration starting from the invariant state
(`debt_balance` of the previous year, previous year's working capital)
produces the closed-form row and re-establishes the invariant. -/
theorem year_step_closed (p : Params) (s : Scalars) (k : ℕ) :
    year_step p s ⟨debt_balance p k, previous_wc p s (k + 1)⟩ (k + 1) =
      (closed_year p s (k + 1), ⟨debt_balance p (k + 1), working_capital p s (k + 1)⟩) :=
  rfl

/-- The loop over years `k+1, ..., k+n` from the invariant state produces
exactly the closed-form rows. -/
theorem run_years_closed (p : Params) (s : Scalars) (n : ℕ) :
    ∀ k, run_years p s (List.range' (k + 1) n) ⟨debt_balance p k, previous_wc p s (k + 1)⟩ =
      (List.range' (k + 1) n).map (closed_year p s) := by
  induction n with
  | zero => intro k; rfl
  | succ n ih =>
    intro k
    rw [List.range'_succ, List.map_cons]
    show (year_step p s ⟨debt_balance p k, previous_wc p s (k + 1)⟩ (k + 1)).1 ::
        run_years p s (List.range' (k + 1 + 1) n)
          (year_step p s ⟨debt_balance p k, previous_wc p s (k + 1)⟩ (k + 1)).2 =
      closed_year p s (k + 1) :: (List.range' (k + 1 + 1) n).map (closed_year p s)
    rw [year_step_closed p s k]
    have hw : working_capital p s (k + 1) = previous_wc p s (k + 1 + 1) := by
      rw [previous_wc, if_neg (by omega), Nat.add_sub_cancel]
    show closed_year p s (k + 1) ::
        run_years p s (List.range' (k + 1 + 1) n) ⟨debt_balance p (k + 1), working_capital p s (k + 1)⟩ = _
    rw [hw, ih (k + 1)]

/-- For a nonzero repayment period the engine succeeds and returns exactly the
closed-form rows for years `1 .. total_period`. -/
theorem calculate_detailed_analysis_ok (p : Params) (s : Scalars) (h : p.repayment_period ≠ 0) :
    calculate_detailed_analysis p s =
      Except.ok ((List.range' 1 (total_period p)).map (closed_year p s)) := by
  rw [calculate_detailed_analysis, if_neg h]
  exact congrArg Except.ok (run_years_closed p s (total_period p) 0)

/-! ## List helpers -/

/-- `getD` inside a replicate block returns the replicated element. -/
theorem getD_replicate (a d : ℚ) : ∀ (n i : ℕ), i < n → (List.replicate n a).getD i d = a
  | 0, i, h => absurd h (Nat.not_lt_zero i)
  | _ + 1, 0, _ => rfl
  | n + 1, i + 1, h => getD_replicate a d n i (Nat.lt_of_succ_lt_succ h)

/-- Closed form of the hard-coded sales-volume schedule for years inside the
project horizon: years 1-4 have volume 0, year 5 and 6 their explicit volumes,
and every later year the `after_7` volume — independently of
`construction_period`. -/
theorem sales_volume_cases (p : Params) (y : ℕ) (h1 : 1 ≤ y) (h2 : y ≤ total_period p) :
    sales_volume p y =
      if y ≤ 4 then 0
      else if y = 5 then p.year5_volume
      else if y = 6 then p.year6_volume
      else p.year7_plus_volume := by
  have hlen : (sales_volumes p).length = 6 + (total_period p - 6) := by
    simp [sales_volumes]
    omega
  rcases Nat.lt_or_ge y 7 with h7 | h7
  · have hy : y ≤ (sales_volumes p).length := by omega
    rw [sales_volume, if_pos hy]
    interval_cases y <;>
      simp [sales_volumes, List.getD_cons_succ, List.getD_cons_zero]
  · have hy : y ≤ (sales_volumes p).length := by omega
    rw [sales_volume, if_pos hy, if_neg (by omega), if_neg (by omega), if_neg (by omega)]
    rw [sales_volumes]
    have hidx : y - 1 = 6 + (y - 7) := by omega
    rw [hidx, List.getD_append_right _ _ _ _ (by simp)]
    simp only [List.length_cons, List.length_nil]
    have hidx2 : 6 + (y - 7) - 6 = y - 7 := by omega
    rw [hidx2]
    exact getD_replicate _ _ _ _ (by omega)

/-- Closed form of the hard-coded investment execution schedule when the
horizon is at least 4 years: 30% in each of years 1-3, 10% in year 4, nothing
afterwards. -/
theorem investment_cases (p : Params) (h4 : 4 ≤ total_period p) (y : ℕ) (h1 : 1 ≤ y) :
    investment p y =
      if y ≤ 3 then p.total_investment * (3 / 10)
      else if y = 4 then p.total_investment * (1 / 10)
      else 0 := by
  have hlen : (investment_execution p).length = 4 + (total_period p - 4) := by
    simp [investment_execution]
    omega
  rcases Nat.lt_or_ge y 5 with h5 | h5
  · have hy : y ≤ (investment_execution p).length := by omega
    rw [investment, if_pos hy]
    interval_cases y <;>
      simp [investment_execution, List.getD_cons_succ, List.getD_cons_zero]
  · rw [if_neg (by omega), if_neg (by omega)]
    rcases le_or_lt y (investment_execution p).length with hy | hy
    · rw [investment, if_pos hy, investment_execution]
      have hidx : y - 1 = 4 + (y - 5) := by omega
      rw [hidx, List.getD_append_right _ _ _ _ (by simp)]
      simp only [List.length_cons, List.length_nil]
      have hidx2 : 4 + (y - 5) - 4 = y - 5 := by omega
      rw [hidx2, getD_replicate _ _ _ _ (by omega), mul_zero]
    · rw [investment, if_neg (by omega)]

/-! ## Debt-balance summation -/

/-- The loop-carried debt balance telescopes to the difference of the summed
increases and decreases. -/
theorem debt_balance_eq_sums (p : Params) (n : ℕ) :
    debt_balance p n =
      ((List.range' 1 n).map (debt_increase p)).sum -
        ((List.range' 1 n).map (debt_decrease p)).sum := by
  induction n with
  | zero => simp [debt_balance]
  | succ n ih =>
    rw [debt_balance, ih, List.range'_concat]
    have h1n : (1 : ℕ) + 1 * n = n + 1 := by omega
    rw [h1n, List.map_append, List.map_append, List.sum_append, List.sum_append]
    simp only [List.map_cons, List.map_nil, List.sum_cons, List.sum_nil, add_zero]
    ring

/-- With a horizon of at least four years the whole investment schedule
(0.3+0.3+0.3+0.1 = 1 exactly) is disbursed, so total borrowing equals
`total_investment * debt_ratio`. -/
theorem sum_debt_increase (p : Params) (h4 : 4 ≤ total_period p) :
    ∀ n, 4 ≤ n →
      ((List.range' 1 n).map (debt_increase p)).sum =
        p.total_investment * (p.debt_ratio_pct / 100) := by
  intro n
  induction n with
  | zero => omega
  | succ n ih =>
    intro hn
    rcases Nat.lt_or_ge n 4 with h | h
    · have hn3 : n = 3 := by omega
      subst hn3
      have hr : List.range' 1 4 = [1, 2, 3, 4] := rfl
      rw [hr]
      simp only [List.map_cons, List.map_nil, List.sum_cons, List.sum_nil, add_zero]
      rw [debt_increase, debt_increase, debt_increase, debt_increase,
        investment_cases p h4 1 (by omega), investment_cases p h4 2 (by omega),
        investment_cases p h4 3 (by omega), investment_cases p h4 4 (by omega)]
      norm_num
      ring
    · rw [List.range'_concat]
      have h1n : (1 : ℕ) + 1 * n = n + 1 := by omega
      rw [h1n, List.map_append, List.sum_append]
      simp only [List.map_cons, List.map_nil, List.sum_cons, List.sum_nil, add_zero]
      rw [ih h, debt_increase, investment_cases p h4 (n + 1) (by omega),
        if_neg (by omega), if_neg (by omega)]
      ring

/-- Summed repayments up to year `n`: one annual repayment for every year of
the repayment window reached so far. -/
theorem sum_debt_decrease (p : Params) :
    ∀ n, ((List.range' 1 n).map (debt_decrease p)).sum =
      annual_repayment p *
        ((min n (p.grace_period + p.repayment_period) - min n p.grace_period : ℕ) : ℚ) := by
  intro n
  induction n with
  | zero => simp
  | succ n ih =>
    rw [List.range'_concat]
    have h1n : (1 : ℕ) + 1 * n = n + 1 := by omega
    rw [h1n, List.map_append, List.sum_append]
    simp only [List.map_cons, List.map_nil, List.sum_cons, List.sum_nil, add_zero]
    rw [ih, debt_decrease]
    by_cases hc : p.grace_period < n + 1 ∧ n + 1 ≤ p.grace_period + p.repayment_period
    · rw [if_pos hc]
      have e1 : min (n + 1) (p.grace_period + p.repayment_period) - min (n + 1) p.grace_period =
          (min n (p.grace_period + p.repayment_period) - min n p.grace_period) + 1 := by omega
      rw [e1]
      push_cast
      ring
    · rw [if_neg hc, add_zero]
      have e1 : min (n + 1) (p.grace_period + p.repayment_period) - min (n + 1) p.grace_period =
          min n (p.grace_period + p.repayment_period) - min n p.grace_period := by omega
      rw [e1]

/-- When the loan window fits inside the horizon and the schedule is fully
disbursed, the final debt balance is exactly zero. -/
theorem debt_balance_final (p : Params) (h4 : 4 ≤ total_period p)
    (hr : 1 ≤ p.repayment_period)
    (hw : p.grace_period + p.repayment_period ≤ total_period p) :
    debt_balance p (total_period p) = 0 := by
  rw [debt_balance_eq_sums, sum_debt_increase p h4 (total_period p) h4, sum_debt_decrease]
  have e1 : min (total_period p) (p.grace_period + p.repayment_period) -
      min (total_period p) p.grace_period = p.repayment_period := by omega
  rw [e1, annual_repayment, total_debt_principal]
  have hrq : (p.repayment_period : ℚ) ≠ 0 := Nat.cast_ne_zero.mpr (by omega)
  field_simp
  ring

/-! ## NPV index shift -/

/-- Shifting the starting exponent of the NPV sum by one multiplies the sum by
`(1 + rate)`, provided the discount base is nonzero. -/
theorem npvFrom_succ (rate : ℚ) (h : 1 + rate ≠ 0) (l : List ℚ) :
    ∀ i, npvFrom rate i l = (1 + rate) * npvFrom rate (i + 1) l := by
  induction l with
  | nil => intro i; simp [npvFrom]
  | cons cf rest ih =>
    intro i
    rw [npvFrom, npvFrom, mul_add, ← ih (i + 1)]
    congr 1
    rw [pow_succ]
    field_simp
    ring

/-! ## Claim C1 -/

/-- C1 counterexample: the claim asserts that every rate the solver returns
lies in [-1.0, 5.0].  On the cash-flow sequence [-1, 8] the exact root of the
code's NPV is 7 (NPV(7) = -1 + 8/8 = 0), and both validators accept and return
7, which is greater than 5.  (`fsolve` converges to this root from the seed
0.1, since the NPV is monotone on the relevant range.) -/
theorem C1_counterexample :
    calculate_irr [-1, 8] 7 = some 7 ∧ flask_irr [-1, 8] 7 = some 7 ∧ ¬((7 : ℚ) ≤ 5) := by
  refine ⟨?_, ?_, by norm_num⟩
  · rw [calculate_irr, if_pos]
    norm_num [npv_func, npvFrom]
  · rw [flask_irr, if_neg]
    norm_num [npv_func, npvFrom]

/-- C1 amended: if the IRR validation returns a rate `r`, then `r` is the
accepted candidate with `|NPV(r)| < 1e-6` and `-0.99 < r < 10`
(steel_investment_analysis.py), respectively `|NPV(r)| ≤ 1e-6` and
`-0.99 ≤ r ≤ 10` (flask_app.py); the bound [-1.0, 5.0] of the original claim
is enforced only by the Monte Carlo retention filter, not by the solver.
Finiteness is automatic in the exact embedding (a float NaN fails the
strict comparison in the steel variant and is rejected there). -/
theorem C1_amended (cash_flows : List ℚ) (candidate r : ℚ) :
    (calculate_irr cash_flows candidate = some r →
      (-99) / 100 < r ∧ r < 10 ∧ |npv_func cash_flows r| < 1 / 1000000) ∧
    (flask_irr cash_flows candidate = some r →
      (-99) / 100 ≤ r ∧ r ≤ 10 ∧ |npv_func cash_flows r| ≤ 1 / 1000000) := by
  constructor
  · intro h
    rw [calculate_irr] at h
    by_cases hc : |npv_func cash_flows candidate| < 1 / 1000000 ∧
        (-99) / 100 < candidate ∧ candidate < 10
    · rw [if_pos hc] at h
      simp only [Option.some.injEq] at h
      subst h
      exact ⟨hc.2.1, hc.2.2, hc.1⟩
    · rw [if_neg hc] at h
      exact Option.noConfusion h
  · intro h
    rw [flask_irr] at h
    by_cases hc : 1 / 1000000 < |npv_func cash_flows candidate| ∨
        candidate < (-99) / 100 ∨ 10 < candidate
    · rw [if_pos hc] at h
      exact Option.noConfusion h
    · rw [if_neg hc] at h
      simp only [Option.some.injEq] at h
      subst h
      push_neg at hc
      exact ⟨hc.2.1, hc.2.2, hc.1⟩

/-- C1 witness: the amended theorem applied to the concrete input above. -/
theorem C1_amended_witness :
    (-99) / 100 < (7 : ℚ) ∧ (7 : ℚ) < 10 ∧ |npv_func [-1, 8] 7| < 1 / 1000000 :=
  (C1_amended [-1, 8] 7 7).1 (by rw [calculate_irr, if_pos]; norm_num [npv_func, npvFrom])

/-! ## Claim C2 -/

/-- C2 counterexample: the claim states NPV(rate) = Σ cash_flows[i]/(1+rate)^i
for i = 1..N with no undiscounted term.  For the one-element sequence [1] at
rate 1 the code's `npv_func` (0-based `enumerate`) gives 1, while the claimed
formula gives 1/2: the code's first cash flow is undiscounted. -/
theorem C2_counterexample :
    npv_func [1] 1 = 1 ∧ npvSpec [1] 1 = 1 / 2 ∧ (1 : ℚ) ≠ 1 / 2 := by
  refine ⟨by norm_num [npv_func, npvFrom], by norm_num [npvSpec, npvFrom], by norm_num⟩

/-- C2 amended: the solver's NPV discounts the i-th cash flow (1-based) by
`(1+rate)^(i-1)` — the first flow is undiscounted — so it equals `(1+rate)`
times the spec's NPV; in particular the two functions have the same roots away
from rate = -1 and the IRR itself is unaffected. -/
theorem C2_amended (cash_flows : List ℚ) (rate : ℚ) (h : rate ≠ -1) :
    npv_func cash_flows rate = (1 + rate) * npvSpec cash_flows rate := by
  have h1 : 1 + rate ≠ 0 := fun hc => h (by linarith)
  exact npvFrom_succ rate h1 cash_flows 0

/-- C2 witness: the amended relation at the concrete input [1], rate 1. -/
theorem C2_amended_witness :
    npv_func [1] 1 = (1 + 1) * npvSpec [1] 1 :=
  C2_amended [1] 1 (by norm_num)

/-! ## Claim C3 -/

/-- C3 counterexample: a `ProjectParameters` with non-negative periods and
monetary values but `loan_repayment_period = 0` (explicitly allowed by the
claim) makes `annual_repayment = total_debt_principal / repayment_period`
raise `ZeroDivisionError` — the projection does not return a result. -/
theorem C3_counterexample :
    calculate_detailed_analysis p_zero_repayment s0 = Except.error PyError.zeroDivisionError :=
  rfl

/-- C3 amended: totality holds once `loan_repayment_period ≥ 1` (the UI indeed
enforces `min_value=1` for it): for every parameter set with non-negative
monetary values — the periods, being `ℕ`, are non-negative by construction —
the engine returns a full `ProjectionResult` with one row per year, even when
all volumes and costs are zero. -/
theorem C3_amended (p : Params) (s : Scalars)
    (hinv : 0 ≤ p.total_investment) (hv5 : 0 ≤ p.year5_volume) (hv6 : 0 ≤ p.year6_volume)
    (hv7 : 0 ≤ p.year7_plus_volume) (hrep : 1 ≤ p.repayment_period) :
    calculate_detailed_analysis p s = Except.ok (result_years p s) ∧
      (result_years p s).length = total_period p := by
  have hne : p.repayment_period ≠ 0 := by omega
  have hok := calculate_detailed_analysis_ok p s hne
  have hr : result_years p s = (List.range' 1 (total_period p)).map (closed_year p s) := by
    rw [result_years, hok]
  rw [hok, hr]
  exact ⟨rfl, by rw [List.length_map, List.length_range']⟩

/-- C3 witness: the amended totality at a concrete all-zero-volume parameter
set (`s_zero` makes every revenue and cost vanish). -/
theorem C3_amended_witness :
    calculate_detailed_analysis p_base s0 = Except.ok (result_years p_base s0) ∧
      (result_years p_base s0).length = total_period p_base :=
  C3_amended p_base s0 (by norm_num [p_base]) (by norm_num [p_base]) (by norm_num [p_base])
    (by norm_num [p_base]) (by norm_num [p_base])

/-! ## Claim C7 -/

/-- C7 counterexample: the claim also covers flask_app.py lines 61-63, where
the division `total_revenue / total_quantity` is NOT guarded: on a historical
dataset with total volume 0 the division by zero happens and the unit price is
a non-finite value (modelled `none`), not 0. -/
theorem C7_counterexample :
    flask_unit_selling_price [46500000] [0] = none ∧
      flask_unit_selling_price [46500000] [0] ≠ some 0 := by
  have h : flask_unit_selling_price [46500000] [0] = none := by
    simp [flask_unit_selling_price]
  exact ⟨h, by rw [h]; exact Option.noConfusion⟩

/-- C7 amended: in `SteelInvestmentAnalyzer.calculate_unit_price_and_costs`
(the guarded aggregator the spec describes) a dataset with zero summed volume
yields `unit_price = 0` with no division by zero; `flask_app.py`, by contrast,
performs the unguarded division and produces a non-finite unit price. -/
theorem C7_amended (sales_revenue sales_volume material_cost processing_cost : List ℚ)
    (h : sales_volume.sum = 0) :
    (calculate_unit_price_and_costs sales_revenue sales_volume material_cost processing_cost).1 = 0 ∧
      flask_unit_selling_price sales_revenue sales_volume = none := by
  constructor
  · rw [calculate_unit_price_and_costs]
    simp [h]
  · rw [flask_unit_selling_price, if_pos h]

/-- C7 witness: the amended claim at a concrete two-period dataset with zero
volume in each period. -/
theorem C7_amended_witness :
    (calculate_unit_price_and_costs [46500000, 0] [0, 0] [465] [160]).1 = 0 ∧
      flask_unit_selling_price [46500000, 0] [0, 0] = none :=
  C7_amended [46500000, 0] [0, 0] [465] [160] (by simp)

/-! ## Claim C4 -/

/-- C4 counterexample: the claim quantifies over every positive
`machinery_depreciation_years` (not only 15).  The engine has no such
parameter: with `p_dep` (total investment 3000, machinery ratio 100%,
construction period 1) the year-2 row's depreciation is 3000/15 = 200, while
the claimed formula with `machinery_depreciation_years = 10 > 0` demands
3000/10 = 300. -/
theorem C4_counterexample :
    ((result_years p_dep s0).getD 1 default).year = 2 ∧
    p_dep.construction_period < 2 ∧
    ((result_years p_dep s0).getD 1 default).depreciation = 200 ∧
    (0 : ℚ) < 10 ∧
    spec_machinery_depreciation p_dep 10 2 = 300 ∧
    (200 : ℚ) ≠ 300 := by
  have hres : result_years p_dep s0 =
      (List.range' 1 (total_period p_dep)).map (closed_year p_dep s0) := by
    rw [result_years, calculate_detailed_analysis_ok p_dep s0 (by norm_num [p_dep])]
  have hget : (result_years p_dep s0).getD 1 default = closed_year p_dep s0 2 := by
    rw [hres]; rfl
  rw [hget]
  refine ⟨rfl, by norm_num [p_dep], ?_, by norm_num, ?_, by norm_num⟩
  · show depreciation p_dep 2 = 200
    rw [depreciation, if_pos (by norm_num [p_dep])]
    norm_num [machinery_depreciation, building_depreciation, p_dep]
  · rw [spec_machinery_depreciation, if_neg (by norm_num [p_dep])]
    norm_num [p_dep]

/-- C4 amended: the divisors are the hard-coded literals 15 and 20 (no
depreciation-years parameters exist in the code): every row produced by the
engine has depreciation 0 up to the construction period and
`total_investment×machinery_ratio/15 + total_investment×building_ratio/20`
afterwards (ratios as fractions). -/
theorem C4_amended (p : Params) (s : Scalars) (res : List YearData) (yd : YearData)
    (h : calculate_detailed_analysis p s = Except.ok res) (hm : yd ∈ res) :
    (yd.year ≤ p.construction_period → yd.depreciation = 0) ∧
    (p.construction_period < yd.year →
      yd.depreciation =
        p.total_investment * (p.machinery_ratio_pct / 100) / 15 +
          p.total_investment * (p.building_ratio_pct / 100) / 20) := by
  have hne : p.repayment_period ≠ 0 := by
    intro h0
    rw [calculate_detailed_analysis, if_pos h0] at h
    exact Except.noConfusion h
  rw [calculate_detailed_analysis_ok p s hne] at h
  simp only [Except.ok.injEq] at h
  subst h
  rcases List.mem_map.mp hm with ⟨y, hy, rfl⟩
  have hyy : (closed_year p s y).year = y := rfl
  constructor
  · intro hle
    rw [hyy] at hle
    show depreciation p y = 0
    rw [depreciation, if_neg (by omega)]
  · intro hgt
    rw [hyy] at hgt
    show depreciation p y = _
    rw [depreciation, if_pos hgt, machinery_depreciation, building_depreciation]
    ring

/-- C4 witness: the amended formulas at year 2 of the concrete run `p_dep`. -/
theorem C4_amended_witness :
    ((closed_year p_dep s0 2).year ≤ p_dep.construction_period →
        (closed_year p_dep s0 2).depreciation = 0) ∧
    (p_dep.construction_period < (closed_year p_dep s0 2).year →
        (closed_year p_dep s0 2).depreciation =
          p_dep.total_investment * (p_dep.machinery_ratio_pct / 100) / 15 +
            p_dep.total_investment * (p_dep.building_ratio_pct / 100) / 20) :=
  C4_amended p_dep s0 ((List.range' 1 (total_period p_dep)).map (closed_year p_dep s0))
    (closed_year p_dep s0 2)
    (calculate_detailed_analysis_ok p_dep s0 (by norm_num [p_dep]))
    (List.mem_map_of_mem _ (by decide))

/-! ## Claim C5 -/

/-- C5 counterexample: the four zero-volume years are hard-coded, not tied to
`construction_period`.  With `construction_period = 5` the year-5 row (still a
construction year, so the claim demands volume 0) carries the configured
year-5 volume 70000. -/
theorem C5_counterexample :
    5 ≤ p_cp5.construction_period ∧
    ((result_years p_cp5 s0).getD 4 default).year = 5 ∧
    ((result_years p_cp5 s0).getD 4 default).sales_volume = 70000 ∧
    (70000 : ℚ) ≠ 0 := by
  have hres : result_years p_cp5 s0 =
      (List.range' 1 (total_period p_cp5)).map (closed_year p_cp5 s0) := by
    rw [result_years, calculate_detailed_analysis_ok p_cp5 s0 (by norm_num [p_cp5])]
  have hget : (result_years p_cp5 s0).getD 4 default = closed_year p_cp5 s0 5 := by
    rw [hres]; rfl
  rw [hget]
  refine ⟨by norm_num [p_cp5], rfl, ?_, by norm_num⟩
  show sales_volume p_cp5 5 = 70000
  rw [sales_volume_cases p_cp5 5 (by norm_num) (by norm_num [total_period, p_cp5])]
  norm_num [p_cp5]

/-- C5 amended: with `construction_period = 4` (the schedule the zeros were
hard-coded for) every engine row has volume 0 during construction, the
configured year-5/year-6 volumes in those years, and the `after_7` volume from
year 7 on. -/
theorem C5_amended (p : Params) (s : Scalars) (res : List YearData) (yd : YearData)
    (hcp : p.construction_period = 4)
    (h : calculate_detailed_analysis p s = Except.ok res) (hm : yd ∈ res) :
    (yd.year ≤ p.construction_period → yd.sales_volume = 0) ∧
    (yd.year = 5 → yd.sales_volume = p.year5_volume) ∧
    (yd.year = 6 → yd.sales_volume = p.year6_volume) ∧
    (7 ≤ yd.year → yd.sales_volume = p.year7_plus_volume) := by
  have hne : p.repayment_period ≠ 0 := by
    intro h0
    rw [calculate_detailed_analysis, if_pos h0] at h
    exact Except.noConfusion h
  rw [calculate_detailed_analysis_ok p s hne] at h
  simp only [Except.ok.injEq] at h
  subst h
  rcases List.mem_map.mp hm with ⟨y, hy, rfl⟩
  rcases List.mem_range'.mp hy with ⟨i, hi, rfl⟩
  have hy1 : 1 ≤ 1 + 1 * i := by omega
  have hy2 : 1 + 1 * i ≤ total_period p := by omega
  have hsv := sales_volume_cases p (1 + 1 * i) hy1 hy2
  have hyy : (closed_year p s (1 + 1 * i)).year = 1 + 1 * i := rfl
  refine ⟨?_, ?_, ?_, ?_⟩
  · intro hle
    rw [hyy, hcp] at hle
    show sales_volume p (1 + 1 * i) = 0
    rw [hsv, if_pos hle]
  · intro h5
    rw [hyy] at h5
    show sales_volume p (1 + 1 * i) = p.year5_volume
    rw [hsv, if_neg (by omega), if_pos h5]
  · intro h6
    rw [hyy] at h6
    show sales_volume p (1 + 1 * i) = p.year6_volume
    rw [hsv, if_neg (by omega), if_neg (by omega), if_pos h6]
  · intro h7
    rw [hyy] at h7
    show sales_volume p (1 + 1 * i) = p.year7_plus_volume
    rw [hsv, if_neg (by omega), if_neg (by omega), if_neg (by omega)]

/-- C5 witness: the amended schedule at year 5 of the default 19-year run. -/
theorem C5_amended_witness :
    ((closed_year p_base s0 5).year ≤ p_base.construction_period →
        (closed_year p_base s0 5).sales_volume = 0) ∧
    ((closed_year p_base s0 5).year = 5 →
        (closed_year p_base s0 5).sales_volume = p_base.year5_volume) ∧
    ((closed_year p_base s0 5).year = 6 →
        (closed_year p_base s0 5).sales_volume = p_base.year6_volume) ∧
    (7 ≤ (closed_year p_base s0 5).year →
        (closed_year p_base s0 5).sales_volume = p_base.year7_plus_volume) :=
  C5_amended p_base s0 ((List.range' 1 (total_period p_base)).map (closed_year p_base s0))
    (closed_year p_base s0 5) rfl
    (calculate_detailed_analysis_ok p_base s0 (by norm_num [p_base]))
    (List.mem_map_of_mem _ (by decide))

/-! ## Claim C6 -/

/-- C6 counterexample: the claim's `debt_increase` is forced to 0 once
`year > loan_grace_period`; the code has no such condition.  With
`grace_period = 2` the year-3 tranche still raises debt by
`investment(3) × debt_ratio = 60,000,000`, so the engine's year-3 balance is
155,000,000 while the claim's recurrence yields 95,000,000. -/
theorem C6_counterexample :
    p_grace2.grace_period < 3 ∧
    ((result_years p_grace2 s0).getD 2 default).year = 3 ∧
    ((result_years p_grace2 s0).getD 2 default).debt_increase = 60000000 ∧
    ((result_years p_grace2 s0).getD 2 default).debt_balance = 155000000 ∧
    spec_debt_balance p_grace2 3 = 95000000 ∧
    (155000000 : ℚ) ≠ 95000000 := by
  have hres : result_years p_grace2 s0 =
      (List.range' 1 (total_period p_grace2)).map (closed_year p_grace2 s0) := by
    rw [result_years, calculate_detailed_analysis_ok p_grace2 s0 (by norm_num [p_grace2])]
  have hget : (result_years p_grace2 s0).getD 2 default = closed_year p_grace2 s0 3 := by
    rw [hres]; rfl
  rw [hget]
  have hinv1 : investment p_grace2 1 = p_grace2.total_investment * (3 / 10) := by
    rw [investment_cases p_grace2 (by norm_num [total_period, p_grace2]) 1 (by norm_num)]
    norm_num
  have hinv2 : investment p_grace2 2 = p_grace2.total_investment * (3 / 10) := by
    rw [investment_cases p_grace2 (by norm_num [total_period, p_grace2]) 2 (by norm_num)]
    norm_num
  have hinv3 : investment p_grace2 3 = p_grace2.total_investment * (3 / 10) := by
    rw [investment_cases p_grace2 (by norm_num [total_period, p_grace2]) 3 (by norm_num)]
    norm_num
  have hd1 : debt_decrease p_grace2 1 = 0 := by
    rw [debt_decrease, if_neg (by norm_num [p_grace2])]
  have hd2 : debt_decrease p_grace2 2 = 0 := by
    rw [debt_decrease, if_neg (by norm_num [p_grace2])]
  have hd3 : debt_decrease p_grace2 3 = annual_repayment p_grace2 := by
    rw [debt_decrease, if_pos (by norm_num [p_grace2])]
  refine ⟨by norm_num [p_grace2], rfl, ?_, ?_, ?_, by norm_num⟩
  · show debt_increase p_grace2 3 = 60000000
    rw [debt_increase, hinv3]
    norm_num [p_grace2]
  · show debt_balance p_grace2 3 = 155000000
    have h3 : debt_balance p_grace2 3 =
        ((0 + debt_increase p_grace2 1 - debt_decrease p_grace2 1) +
            debt_increase p_grace2 2 - debt_decrease p_grace2 2) +
          debt_increase p_grace2 3 - debt_decrease p_grace2 3 := rfl
    rw [h3, debt_increase, debt_increase, debt_increase, hinv1, hinv2, hinv3, hd1, hd2, hd3]
    norm_num [annual_repayment, total_debt_principal, p_grace2]
  · have h3 : spec_debt_balance p_grace2 3 =
        ((0 + spec_debt_increase p_grace2 1 - debt_decrease p_grace2 1) +
            spec_debt_increase p_grace2 2 - debt_decrease p_grace2 2) +
          spec_debt_increase p_grace2 3 - debt_decrease p_grace2 3 := rfl
    rw [h3, hd1, hd2, hd3]
    rw [spec_debt_increase, if_neg (by norm_num [p_grace2]),
      spec_debt_increase, if_neg (by norm_num [p_grace2]),
      spec_debt_increase, if_pos (by norm_num [p_grace2]),
      hinv1, hinv2]
    norm_num [annual_repayment, total_debt_principal, p_grace2]

/-- C6 amended: in every engine run, `debt_increase(y) = investment(y) ×
debt_ratio` unconditionally (no grace-period gate), `debt_decrease(y)` is the
equal installment exactly inside the window
`(loan_grace_period, loan_grace_period + loan_repayment_period]`, and the
balance satisfies the first-order recurrence with `debt_balance(0) = 0`. -/
theorem C6_amended (p : Params) (s : Scalars) (res : List YearData)
    (h : calculate_detailed_analysis p s = Except.ok res) :
    (∀ yd, yd ∈ res →
      yd.debt_increase = yd.investment * (p.debt_ratio_pct / 100) ∧
      yd.debt_decrease =
        (if p.grace_period < yd.year ∧ yd.year ≤ p.grace_period + p.repayment_period
         then p.total_investment * (p.debt_ratio_pct / 100) / (p.repayment_period : ℚ)
         else 0)) ∧
    (∀ yd, res[0]? = some yd →
      yd.debt_balance = 0 + yd.debt_increase - yd.debt_decrease) ∧
    (∀ i yd yd2, res[i]? = some yd → res[i + 1]? = some yd2 →
      yd2.debt_balance = yd.debt_balance + yd2.debt_increase - yd2.debt_decrease) := by
  have hne : p.repayment_period ≠ 0 := by
    intro h0
    rw [calculate_detailed_analysis, if_pos h0] at h
    exact Except.noConfusion h
  rw [calculate_detailed_analysis_ok p s hne] at h
  simp only [Except.ok.injEq] at h
  subst h
  refine ⟨?_, ?_, ?_⟩
  · intro yd hm
    rcases List.mem_map.mp hm with ⟨y, hy, rfl⟩
    exact ⟨rfl, rfl⟩
  · intro yd h0
    have hlen : 0 < total_period p := by
      by_contra hz
      rw [List.getElem?_eq_none (by simp; omega)] at h0
      exact Option.noConfusion h0
    rw [List.getElem?_map, List.getElem?_range' 1 1 hlen, Option.map_some'] at h0
    simp only [Option.some.injEq] at h0
    subst h0
    show debt_balance p 1 = 0 + debt_increase p 1 - debt_decrease p 1
    rfl
  · intro i yd yd2 h1 h2
    have hlen : i + 1 < total_period p := by
      by_contra hz
      rw [List.getElem?_eq_none (by simp; omega)] at h2
      exact Option.noConfusion h2
    rw [List.getElem?_map, List.getElem?_range' 1 1 (by omega), Option.map_some'] at h1
    rw [List.getElem?_map, List.getElem?_range' 1 1 hlen, Option.map_some'] at h2
    simp only [Option.some.injEq] at h1 h2
    subst h1
    subst h2
    have e1 : 1 + 1 * (i + 1) = (1 + 1 * i) + 1 := by omega
    rw [e1]
    show debt_balance p ((1 + 1 * i) + 1) =
      debt_balance p (1 + 1 * i) + debt_increase p ((1 + 1 * i) + 1) -
        debt_decrease p ((1 + 1 * i) + 1)
    rfl

/-- C6 witness: the amended recurrence between years 2 and 3 of the `p_dep`
run. -/
theorem C6_amended_witness :
    (closed_year p_dep s0 3).debt_balance =
      (closed_year p_dep s0 2).debt_balance + (closed_year p_dep s0 3).debt_increase -
        (closed_year p_dep s0 3).debt_decrease :=
  (C6_amended p_dep s0 ((List.range' 1 (total_period p_dep)).map (closed_year p_dep s0))
      (calculate_detailed_analysis_ok p_dep s0 (by norm_num [p_dep]))).2.2 1
    (closed_year p_dep s0 2) (closed_year p_dep s0 3)
    (by rw [List.getElem?_map, List.getElem?_range' 1 1 (by norm_num [total_period, p_dep])]; rfl)
    (by rw [List.getElem?_map, List.getElem?_range' 1 1 (by norm_num [total_period, p_dep])]; rfl)

/-! ## Claim C10 -/

/-- C10 (implicit full-amortization claim): with a horizon of at least 4 years,
a repayment period of at least 1, and the loan window contained in the horizon,
the final row's debt balance is exactly 0 — the schedule (0.3, 0.3, 0.3, 0.1)
sums to 1, so total borrowing `total_investment × debt_ratio` is repaid by the
equal installments exactly. -/
theorem C10_full_amortization (p : Params) (s : Scalars) (res : List YearData) (yd : YearData)
    (h4 : 4 ≤ total_period p) (hr : 1 ≤ p.repayment_period)
    (hw : p.grace_period + p.repayment_period ≤ total_period p)
    (h : calculate_detailed_analysis p s = Except.ok res)
    (hl : res.getLast? = some yd) :
    yd.debt_balance = 0 := by
  have hne : p.repayment_period ≠ 0 := by omega
  rw [calculate_detailed_analysis_ok p s hne] at h
  simp only [Except.ok.injEq] at h
  subst h
  rw [List.getLast?_eq_getElem?, List.length_map, List.length_range'] at hl
  rw [List.getElem?_map, List.getElem?_range' 1 1 (by omega), Option.map_some'] at hl
  simp only [Option.some.injEq] at hl
  subst hl
  have eT : 1 + 1 * (total_period p - 1) = total_period p := by omega
  rw [eT]
  show debt_balance p (total_period p) = 0
  exact debt_balance_final p h4 hr hw

/-- C10 witness: the 9-year run `p_amort` (grace 1 + repayment 8 = horizon 9)
ends with debt balance 0. -/
theorem C10_witness :
    (closed_year p_amort s0 (1 + 1 * (total_period p_amort - 1))).debt_balance = 0 :=
  C10_full_amortization p_amort s0
    ((List.range' 1 (total_period p_amort)).map (closed_year p_amort s0))
    (closed_year p_amort s0 (1 + 1 * (total_period p_amort - 1)))
    (by norm_num [total_period, p_amort]) (by norm_num [p_amort])
    (by norm_num [total_period, p_amort])
    (calculate_detailed_analysis_ok p_amort s0 (by norm_num [p_amort]))
    (by
      rw [List.getLast?_eq_getElem?, List.length_map, List.length_range']
      rw [List.getElem?_map, List.getElem?_range' 1 1 (by norm_num [total_period, p_amort])]
      rfl)

/-! ## Claim C8 -/

/-- C8: the Monte Carlo loop is total over arbitrary per-draw outcomes
(exceptions included — the code's `try`/`except` maps them to silent skips):
(1) it returns the NoData result (`None`) exactly when no draw was retained;
(2) a draw is retained exactly when its run produced a finite numeric rate in
[-1.0, 5.0];
(3) a returned summary is computed from exactly the retained `(factor, irr)`
pairs, with the base IRR passed through. -/
theorem C8_monte_carlo (base_irr : Option ℚ) (draws : List (ℚ × IrrOutcome)) :
    (perform_single_variable_monte_carlo base_irr draws = none ↔
      draws.filterMap retain_sample = []) ∧
    (∀ d : ℚ × IrrOutcome, (retain_sample d).isSome = true ↔
      ∃ r, d.2 = IrrOutcome.val r ∧ -1 ≤ r ∧ r ≤ 5) ∧
    (∀ s, perform_single_variable_monte_carlo base_irr draws = some s →
      s.base_irr = base_irr ∧
      s.irr_results = (draws.filterMap retain_sample).map Prod.snd ∧
      s.factor_values = (draws.filterMap retain_sample).map Prod.fst) := by
  refine ⟨?_, ?_, ?_⟩
  · rw [perform_single_variable_monte_carlo]
    split_ifs with hz
    · simp only [true_iff]
      rw [List.length_map, List.length_eq_zero] at hz
      exact hz
    · simp only [false_iff]
      intro he
      rw [he] at hz
      simp at hz
  · rintro ⟨f, o⟩
    cases o with
    | raised => simp [retain_sample]
    | noneIrr => simp [retain_sample]
    | nonFinite => simp [retain_sample]
    | val r =>
      constructor
      · intro hs
        rw [retain_sample] at hs
        by_cases hb : -1 ≤ r ∧ r ≤ 5
        · exact ⟨r, rfl, hb⟩
        · rw [if_neg hb] at hs
          simp at hs
      · rintro ⟨r2, hr2, hb⟩
        simp only [IrrOutcome.val.injEq] at hr2
        subst hr2
        rw [retain_sample, if_pos hb]
        rfl
  · intro s hs
    rw [perform_single_variable_monte_carlo] at hs
    split_ifs at hs with hz
    simp only [Option.some.injEq] at hs
    subst hs
    exact ⟨rfl, rfl, rfl⟩

/-- C8 witness: five concrete draws — one valid rate 1/5, one engine
exception, one rate 7 outside [-1, 5], one unsolved, one non-finite — of which
exactly the first is retained. -/
theorem C8_monte_carlo_witness :
    ({ base_irr := some (1 / 10), mean_irr := (1 / 5 + 0) / 1, min_irr := 1 / 5,
       max_irr := 1 / 5, irr_results := [1 / 5], factor_values := [1 / 2] } :
        SampleSummary).base_irr = some (1 / 10) ∧
    ({ base_irr := some (1 / 10), mean_irr := (1 / 5 + 0) / 1, min_irr := 1 / 5,
       max_irr := 1 / 5, irr_results := [1 / 5], factor_values := [1 / 2] } :
        SampleSummary).irr_results =
      (([(0, IrrOutcome.val (1 / 5)), (3, IrrOutcome.raised), (0, IrrOutcome.val 7),
          ((1 : ℚ) / 4, IrrOutcome.noneIrr), (2, IrrOutcome.nonFinite)] :
            List (ℚ × IrrOutcome)).filterMap retain_sample).map Prod.snd ∧
    ({ base_irr := some (1 / 10), mean_irr := (1 / 5 + 0) / 1, min_irr := 1 / 5,
       max_irr := 1 / 5, irr_results := [1 / 5], factor_values := [1 / 2] } :
        SampleSummary).factor_values =
      (([(0, IrrOutcome.val (1 / 5)), (3, IrrOutcome.raised), (0, IrrOutcome.val 7),
          ((1 : ℚ) / 4, IrrOutcome.noneIrr), (2, IrrOutcome.nonFinite)] :
            List (ℚ × IrrOutcome)).filterMap retain_sample).map Prod.fst :=
  (C8_monte_carlo (some (1 / 10))
      [(0, IrrOutcome.val (1 / 5)), (3, IrrOutcome.raised), (0, IrrOutcome.val 7),
        ((1 : ℚ) / 4, IrrOutcome.noneIrr), (2, IrrOutcome.nonFinite)]).2.2
    { base_irr := some (1 / 10), mean_irr := (1 / 5 + 0) / 1, min_irr := 1 / 5,
      max_irr := 1 / 5, irr_results := [1 / 5], factor_values := [1 / 2] }
    (by
      rw [perform_single_variable_monte_carlo]
      have hcol : ([(0, IrrOutcome.val (1 / 5)), (3, IrrOutcome.raised), (0, IrrOutcome.val 7),
          ((1 : ℚ) / 4, IrrOutcome.noneIrr), (2, IrrOutcome.nonFinite)] :
            List (ℚ × IrrOutcome)).filterMap retain_sample = [(1 / 2, 1 / 5)] := by
        rw [List.filterMap_cons, List.filterMap_cons, List.filterMap_cons,
          List.filterMap_cons, List.filterMap_cons, List.filterMap_nil]
        rw [retain_sample, if_pos (by norm_num), retain_sample, retain_sample,
          if_neg (by norm_num), retain_sample, retain_sample]
        norm_num [clamp_factor]
      rw [hcol]
      norm_num [np_min, np_max])

/-! ## Claim C9 -/

/-- C9: the grid regression of `display_results` retains exactly the
combinations whose run yields a finite numeric rate, fits only when at least
10 combinations were retained (returning the insufficient-data result
otherwise), and the fit consumes exactly the retained points; the legacy
`show_advanced_analysis` variant likewise fits only with more than 10 valid
points and never with fewer than 10. -/
theorem C9_grid_regression (evalIrr : ℤ → ℤ → ℤ → IrrOutcome)
    (draws : List ((ℚ × ℚ × ℚ) × IrrOutcome)) :
    (display_results_regression evalIrr = none ↔
      (collect_regression_samples evalIrr).length < 10) ∧
    (∀ fit, display_results_regression evalIrr = some fit →
      fit.sample_points = (collect_regression_samples evalIrr).map Prod.fst ∧
      fit.sample_irrs = (collect_regression_samples evalIrr).map Prod.snd ∧
      10 ≤ fit.sample_irrs.length) ∧
    (∀ c r, (c, r) ∈ collect_regression_samples evalIrr ↔
      c ∈ grid_combinations ∧ evalIrr c.1 c.2.1 c.2.2 = IrrOutcome.val r) ∧
    (∀ fit2, show_advanced_analysis_regression draws = some fit2 →
      10 ≤ fit2.length ∧ fit2 = collect_broken_samples draws) ∧
    ((collect_broken_samples draws).length < 10 →
      show_advanced_analysis_regression draws = none) := by
  refine ⟨?_, ?_, ?_, ?_, ?_⟩
  · rw [display_results_regression]
    split_ifs with hz
    · simp only [false_iff]
      omega
    · simp only [true_iff]
      omega
  · intro fit hf
    rw [display_results_regression] at hf
    split_ifs at hf with hz
    simp only [Option.some.injEq] at hf
    subst hf
    exact ⟨rfl, rfl, by rw [List.length_map]; exact hz⟩
  · intro c r
    constructor
    · intro hmem
      rcases List.mem_filterMap.mp hmem with ⟨c2, hc2, hg⟩
      cases he : evalIrr c2.1 c2.2.1 c2.2.2 with
      | raised => rw [he] at hg; exact Option.noConfusion hg
      | noneIrr => rw [he] at hg; exact Option.noConfusion hg
      | nonFinite => rw [he] at hg; exact Option.noConfusion hg
      | val r2 =>
        rw [he] at hg
        simp only [Option.some.injEq, Prod.mk.injEq] at hg
        rcases hg with ⟨rfl, rfl⟩
        exact ⟨hc2, he⟩
    · rintro ⟨hc, he⟩
      exact List.mem_filterMap.mpr ⟨c, hc, by rw [he]⟩
  · intro fit2 hf
    rw [show_advanced_analysis_regression] at hf
    split_ifs at hf with hz
    simp only [Option.some.injEq] at hf
    subst hf
    exact ⟨by omega, rfl⟩
  · intro hlt
    rw [show_advanced_analysis_regression, if_neg (by omega)]

/-- C9 witness: with a run for which every combination is unsolved, no sample
is retained and the regression reports insufficient data. -/
theorem C9_grid_regression_witness :
    display_results_regression (fun _ _ _ => IrrOutcome.noneIrr) = none :=
  (C9_grid_regression (fun _ _ _ => IrrOutcome.noneIrr) []).1.mpr (by decide)

end InSight
